import Mathlib

/-!
Verification of the reflectica multimodal diary bot against its design
specification.

The development is a shallow embedding of the Python sources:
  * `app/utils/timezone.py`   — reminder due-window check;
  * `app/bot/handlers.py`     — event creation (`create_event_from_message`);
  * `app/gemini/client.py`    — enrichment client with JSON-repair retry;
  * `app/tasks/processing.py` — the processing pipeline tasks;
  * `app/tasks/reminders.py`  — the reminder scheduler sweep.

External effects (provider responses, blob fetches, outgoing sends, the
wall clock) are modelled as explicit oracle inputs; the relational store
is modelled as in-memory state threaded through each operation (the spec
scopes relational storage to "query semantics only").  Parsed JSON is
modelled by the inductive `JVal`; a provider response that fails JSON
decoding is modelled as `none`.
-/

namespace Reflectica

/-- Parsed JSON value.  Numbers are modelled as rationals (the sources use
them only for confidences and small scores). -/
inductive JVal where
  | jnull : JVal
  | jbool : Bool → JVal
  | jnum : Rat → JVal
  | jstr : String → JVal
  | jarr : List JVal → JVal
  | jobj : List (String × JVal) → JVal
deriving Repr

/-- A parsed JSON object, as an insertion-ordered association list
(first binding wins on lookup, like a Python dict with unique keys). -/
abbrev JObj := List (String × JVal)

/-- `d.get(k)` on a Python dict: `none` models Python `None`. -/
def jget (d : JObj) (k : String) : Option JVal :=
  match d.find? (fun p => p.1 == k) with
  | some p => some p.2
  | none => none

/-- `d.get(k, dflt)` on a Python dict. -/
def jgetD (d : JObj) (k : String) (dflt : JVal) : JVal :=
  (jget d k).getD dflt

/-- Python `k in v` for a string key `k`: key membership on dicts,
element membership on lists, `False` on other values (scalars are not
containers; on those Python would raise, which no reachable call does). -/
def jHasKey (v : JVal) (k : String) : Bool :=
  match v with
  | JVal.jobj fields => (jget fields k).isSome
  | JVal.jarr items => items.any (fun x => match x with
      | JVal.jstr s => s == k
      | _ => false)
  | _ => false

/-- Python truthiness of a JSON value. -/
def jTruthy (v : JVal) : Bool :=
  match v with
  | JVal.jnull => false
  | JVal.jbool b => b
  | JVal.jnum q => q != 0
  | JVal.jstr s => s != ""
  | JVal.jarr items => !items.isEmpty
  | JVal.jobj fields => !fields.isEmpty

/-- `result.setdefault`-style backfill used by face analysis: if `k` is
absent, append the binding `(k, v)` (Python dicts append new keys at the
end); an existing binding is kept untouched. -/
def jSetDefault (d : JObj) (k : String) (v : JVal) : JObj :=
  if (jget d k).isSome then d else d ++ [(k, v)]

/-! ### `app/utils/timezone.py` -/

/-- A local wall-clock time of day (`datetime.time`). -/
structure Time where
  hour : Nat
  minute : Nat
  second : Nat
deriving DecidableEq, Repr

/-- Minutes-of-day of a wall-clock time (seconds are truncated, exactly as
`hour * 60 + minute` in the source). -/
def minutesOfDay (t : Time) : Nat := t.hour * 60 + t.minute

/-- `is_time_in_range` from `app/utils/timezone.py`: is `current_time`
within `window_minutes` of `target_time`? -/
def is_time_in_range (current_time target_time : Time)
    (window_minutes : Nat := 5) : Bool :=
  let current_minutes := current_time.hour * 60 + current_time.minute
  let target_minutes := target_time.hour * 60 + target_time.minute
  let window_start := target_minutes
  let window_end := target_minutes + window_minutes
  decide (window_start ≤ current_minutes) && decide (current_minutes < window_end)

/-! ### `app/db/models.py` — Event rows -/

/-- An `events` row.  `created_at_utc` is an opaque instant; `local_date`
is an abstract calendar day (both only compared for equality here). -/
structure Event where
  telegram_user_id : Int
  chat_id : Int
  message_id : Int
  event_type : String
  source_type : String
  created_at_utc : Nat
  local_date : Int
  raw_file_s3_key : Option String
  raw_file_mime : Option String
  raw_file_meta : Option JObj
  text_content : Option String
  processing_status : String
  processing_error : Option String
  derived_meta : Option JObj
deriving Repr

/-- Python truthiness of `text_content : str | None`: `None` and the empty
string are falsy. -/
def pyTruthyStr (s : Option String) : Bool :=
  match s with
  | none => false
  | some s => s != ""

/-! ### `app/bot/handlers.py` — event creation -/

/-- `create_event_from_message`: builds the `Event` row inserted at capture
time.  `created_at_utc` and `local_date` stand for `datetime.now(UTC)` and
the user's local date at that instant (inputs to the model). -/
def create_event_from_message (telegram_user_id chat_id message_id : Int)
    (event_type source_type : String) (created_at_utc : Nat) (local_date : Int)
    (s3_key : Option String) (mime_type : Option String)
    (file_meta : Option JObj) (text_content : Option String) : Event :=
  { telegram_user_id := telegram_user_id
    chat_id := chat_id
    message_id := message_id
    event_type := event_type
    source_type := source_type
    created_at_utc := created_at_utc
    local_date := local_date
    raw_file_s3_key := s3_key
    raw_file_mime := mime_type
    raw_file_meta := file_meta
    text_content := text_content
    processing_status := if pyTruthyStr text_content then "ok" else "queued"
    processing_error := none
    derived_meta := none }

/-! ### `app/gemini/client.py` — enrichment client

Each operation is modelled over a `provider : Nat → Option JVal` oracle:
`provider n` is the parse outcome of the `n`-th `generate_content` call for
this operation's input (`none` models a `json.JSONDecodeError`, i.e. a
response that is not valid JSON).  The pair returned is the operation's
result together with the number of provider calls it made. -/

/-- Failures raised by the client: `parseError` is the `ValueError` raised
when the JSON-repair retry also fails to parse (the spec's `ParseError`);
`missingField` is the `ValueError` raised when a parsed first response
lacks a required field (raised directly, without retry). -/
inductive GemError where
  | parseError : String → GemError
  | missingField : String → GemError
deriving DecidableEq, Repr

/-- Message of the `ValueError` raised when the repair retry fails (the
source interpolates the decoding error's detail after this prefix; the
detail is not modelled). -/
def gemRepairFailMsg : String := "Failed to get valid JSON response from Gemini"

/-- `GeminiClient._retry_with_repair`: re-send the same input with the
stripped-down "return valid JSON only" instruction; a second parse failure
raises the `ValueError` modelled as `parseError`.  The repair result is
returned as parsed, without any per-operation validation or
normalization. -/
def retry_with_repair (resp : Option JVal) : Except GemError JVal :=
  match resp with
  | some j => Except.ok j
  | none => Except.error (GemError.parseError gemRepairFailMsg)

/-- `GeminiClient.transcribe_audio`: parse the first response; on decode
failure retry once via `retry_with_repair`; a parsed first response must
contain `"text"` or a `ValueError` is raised without retry. -/
def transcribe_audio (provider : Nat → Option JVal) : Except GemError JVal × Nat :=
  match provider 0 with
  | none => (retry_with_repair (provider 1), 2)
  | some result =>
      if jHasKey result "text" then (Except.ok result, 1)
      else (Except.error
        (GemError.missingField "Missing 'text' field in transcription response"), 1)

/-- `GeminiClient.ocr_handwriting`: same shape as transcription, with
required field `"cleaned_text"`. -/
def ocr_handwriting (provider : Nat → Option JVal) : Except GemError JVal × Nat :=
  match provider 0 with
  | none => (retry_with_repair (provider 1), 2)
  | some result =>
      if jHasKey result "cleaned_text" then (Except.ok result, 1)
      else (Except.error
        (GemError.missingField "Missing 'cleaned_text' field in OCR response"), 1)

/-- Shape normalization in `GeminiClient.analyze_face`: a parsed list is
replaced by its first element when that element is a dict, else by the
empty dict; a parsed dict is kept; any other value becomes the empty
dict. -/
def faceBase (parsed : JVal) : JObj :=
  match parsed with
  | JVal.jobj fields => fields
  | JVal.jarr (JVal.jobj fields :: _) => fields
  | _ => []

/-- Default backfill in `GeminiClient.analyze_face`: every missing required
field is filled with a conservative default, in source order. -/
def faceFillDefaults (result : JObj) : JObj :=
  jSetDefault
    (jSetDefault
      (jSetDefault
        (jSetDefault result "dominant_emotion" (JVal.jstr "neutral"))
        "stress_level_0_10" (JVal.jnum 5))
      "confidence" (JVal.jnum (3 / 10)))
    "notes" (JVal.jstr "Response format incomplete")

/-- `GeminiClient.analyze_face`: parse the first response and defensively
normalize it (shape, then default backfill).  On decode failure the repair
retry's parse result is returned **as is** — the repair path performs no
normalization or backfill. -/
def analyze_face (provider : Nat → Option JVal) : Except GemError JVal × Nat :=
  match provider 0 with
  | none => (retry_with_repair (provider 1), 2)
  | some parsed =>
      (Except.ok (JVal.jobj (faceFillDefaults (faceBase parsed))), 1)

/-- Entry-type vocabulary accepted by text classification. -/
def textValidTypes : List String := ["reflection", "dream", "mindform", "drawing", "other"]

/-- `GeminiClient.classify_text_content`: total — decode failures and any
other error (including a parsed non-dict response, whose `.get` raises
`AttributeError`) are caught and mapped to the `reflection` fallback; an
out-of-vocabulary or non-string `event_type` is coerced to `reflection`. -/
def classify_text_content (resp : Option JVal) : JObj :=
  match resp with
  | none =>
      [("event_type", JVal.jstr "reflection"), ("confidence", JVal.jnum (3 / 10)),
       ("reasoning", JVal.jstr "Classification failed")]
  | some (JVal.jobj result) =>
      let event_type :=
        match jget result "event_type" with
        | some (JVal.jstr s) => if textValidTypes.contains s then s else "reflection"
        | some _ => "reflection"
        | none => "reflection"
      [("event_type", JVal.jstr event_type),
       ("confidence", jgetD result "confidence" (JVal.jnum (1 / 2))),
       ("reasoning", jgetD result "reasoning" (JVal.jstr ""))]
  | some _ =>
      [("event_type", JVal.jstr "reflection"), ("confidence", JVal.jnum (3 / 10)),
       ("reasoning", JVal.jstr "Classification error")]

/-! ### `app/tasks/processing.py` — the processing pipeline

Each Celery task is modelled as a total function on the event row it
loads, with the externally-observable effects of one invocation gathered
in a `TaskResult`.  The outcomes of the task's network calls are oracle
inputs (`PipeEnv`); database commits are modelled as updates to the
threaded row (the spec scopes relational storage to query semantics).
Image auto-rotation is best-effort and affects no persisted state, so it
has no footprint in the model. -/

/-- Oracle outcomes of one pipeline invocation's external calls:
`download` is the MinIO blob fetch; `enrich` is the Gemini call for the
task's kind (its payload is the client's parsed return value);
`classify` is the `classify_text_content` call made by the transcription
task on a non-blank transcript; `notify` is the `send_entry_summary`
send.  Errors carry the Python exception's message. -/
structure PipeEnv where
  download : Except String Unit
  enrich : Except String JVal
  classify : Except String JObj
  notify : Except String Unit

/-- Observable outcome of one pipeline task invocation: the event row as
finally committed, whether the post-success notification was attempted,
and the ordered list of `processing_status` values committed during the
invocation. -/
structure TaskResult where
  event : Event
  notified : Bool
  trace : List String
deriving Repr

/-- Truthiness of Python `text.strip()` (the transcription task's guard
around reclassification): true exactly when the text has at least one
non-whitespace character. -/
def stripTruthy (s : String) : Bool := s.data.any (fun c => !c.isWhitespace)

/-- Failure handling shared by the three tasks (`except Exception` block):
persist status `failed` with the error message, after the already-committed
`processing` transition. -/
def taskFail (ev1 : Event) (msg : String) : TaskResult :=
  { event := { ev1 with processing_status := "failed", processing_error := some msg }
    notified := false
    trace := ["processing", "failed"] }

/-- Success handling shared by the three tasks: the final row is committed
with status `ok`, then the notification is attempted (its failure is only
logged and changes nothing). -/
def taskSucceed (ev2 : Event) (text : String) (meta : JObj) : TaskResult :=
  { event := { ev2 with text_content := some text
                        derived_meta := some meta
                        processing_status := "ok" }
    notified := true
    trace := ["processing", "ok"] }

/-- `transcribe_audio_task`: guard on `queued`, commit `processing`, fetch
the blob, transcribe; on a non-blank transcript re-run text classification
(its failure is caught and only logged) and overwrite the entry type with
a truthy classified tag; persist transcript, derived metadata and `ok`.
`classify_text_content` only ever returns a non-empty vocabulary string as
the tag; other truthy tag shapes cannot inhabit the string column and are
modelled as leaving the type unchanged.  A transcript value that is not a
string makes the Python `.strip()` call raise, which the task records as a
failure. -/
def transcribe_audio_task (env : PipeEnv) (ev : Event) : TaskResult :=
  if ev.processing_status != "queued" then
    { event := ev, notified := false, trace := [] }
  else
    let ev1 := { ev with processing_status := "processing" }
    match env.download with
    | Except.error e => taskFail ev1 e
    | Except.ok _ =>
      match env.enrich with
      | Except.error e => taskFail ev1 e
      | Except.ok (JVal.jobj result) =>
        match jget result "text" with
        | some (JVal.jstr transcription_text) =>
            let classified : Event × Option JObj :=
              if stripTruthy transcription_text then
                match env.classify with
                | Except.error _ => (ev1, none)
                | Except.ok cls =>
                    match jget cls "event_type" with
                    | some (JVal.jstr s) =>
                        (if s != "" then { ev1 with event_type := s } else ev1, some cls)
                    | _ => (ev1, some cls)
              else (ev1, none)
            let derived : JObj :=
              [("language", jgetD result "language" JVal.jnull),
               ("segments", jgetD result "segments" (JVal.jarr []))]
              ++ (match classified.2 with
                  | some cls => if cls.isEmpty then [] else [("classification", JVal.jobj cls)]
                  | none => [])
            taskSucceed classified.1 transcription_text derived
        | none =>
            taskSucceed ev1 ""
              [("language", jgetD result "language" JVal.jnull),
               ("segments", jgetD result "segments" (JVal.jarr []))]
        | some _ => taskFail ev1 "AttributeError: strip"
      | Except.ok _ => taskFail ev1 "AttributeError: get"

/-- `ocr_handwriting_task`: guard on `queued`, commit `processing`, fetch
the blob, OCR; persist cleaned text, derived metadata and `ok`.  A
non-string `cleaned_text` cannot inhabit the text column and is modelled
as a storage failure recorded on the event. -/
def ocr_handwriting_task (env : PipeEnv) (ev : Event) : TaskResult :=
  if ev.processing_status != "queued" then
    { event := ev, notified := false, trace := [] }
  else
    let ev1 := { ev with processing_status := "processing" }
    match env.download with
    | Except.error e => taskFail ev1 e
    | Except.ok _ =>
      match env.enrich with
      | Except.error e => taskFail ev1 e
      | Except.ok (JVal.jobj result) =>
        let derived : JObj :=
          [("raw_text", jgetD result "raw_text" (JVal.jstr "")),
           ("cleaned_text", jgetD result "cleaned_text" (JVal.jstr "")),
           ("language", jgetD result "language" JVal.jnull),
           ("confidence", jgetD result "confidence" JVal.jnull),
           ("notes", jgetD result "notes" JVal.jnull)]
        match jget result "cleaned_text" with
        | some (JVal.jstr cleaned) => taskSucceed ev1 cleaned derived
        | none => taskSucceed ev1 "" derived
        | some _ => taskFail ev1 "StorageError: text_content must be a string"
      | Except.ok _ => taskFail ev1 "AttributeError: get"

/-- Rendering of a JSON scalar inside the face summary f-string.  The
summary text is never inspected by any property here; composite values
(which the normalized client result never produces for these fields) get a
fixed placeholder instead of Python's full repr. -/
def jReprShallow (v : JVal) : String :=
  match v with
  | JVal.jnull => "None"
  | JVal.jbool b => if b then "True" else "False"
  | JVal.jnum q => toString q
  | JVal.jstr s => s
  | JVal.jarr _ => "[...]"
  | JVal.jobj _ => "dict"

/-- Python `f"{q:.0%}"` on a rational (the exact rounding mode at half
values is immaterial to every property here). -/
def fmtPct (q : Rat) : String := toString (round (q * 100) : Int) ++ "%"

/-- `analyze_face_task`: guard on `queued`, commit `processing`, fetch the
blob, analyze; build the human-readable summary and persist it with the
derived metadata and `ok`.  The `{confidence:.0%}` format raises on a
non-numeric confidence, which the task records as a failure. -/
def analyze_face_task (env : PipeEnv) (ev : Event) : TaskResult :=
  if ev.processing_status != "queued" then
    { event := ev, notified := false, trace := [] }
  else
    let ev1 := { ev with processing_status := "processing" }
    match env.download with
    | Except.error e => taskFail ev1 e
    | Except.ok _ =>
      match env.enrich with
      | Except.error e => taskFail ev1 e
      | Except.ok (JVal.jobj result) =>
        let emotion := jgetD result "dominant_emotion" (JVal.jstr "unknown")
        let stress := jgetD result "stress_level_0_10" (JVal.jnum 5)
        let conf := jgetD result "confidence" (JVal.jnum 0)
        let notes := jgetD result "notes" (JVal.jstr "")
        let pct : Except String String :=
          match conf with
          | JVal.jnum q => Except.ok (fmtPct q)
          | JVal.jbool b => Except.ok (fmtPct (if b then 1 else 0))
          | _ => Except.error "ValueError: unsupported format string"
        match pct with
        | Except.error e => taskFail ev1 e
        | Except.ok confText =>
            let summary :=
              "Emotion: " ++ jReprShallow emotion
                ++ "\nStress level: " ++ jReprShallow stress ++ "/10"
                ++ "\nConfidence: " ++ confText
                ++ (if jTruthy notes then "\nNotes: " ++ jReprShallow notes else "")
            taskSucceed ev1 summary
              [("dominant_emotion", emotion), ("stress_level_0_10", stress),
               ("confidence", conf), ("notes", notes)]
      | Except.ok _ => taskFail ev1 "AttributeError: get"

/-! ### `app/tasks/reminders.py` — the reminder scheduler -/

/-- A `users` row (the fields the sweep reads). -/
structure UserRec where
  telegram_user_id : Int
  timezone : String
  reminder_time_local : Time
  reminder_required_types : List String
deriving Repr

/-- A `reminders` ledger row. -/
structure ReminderRow where
  telegram_user_id : Int
  local_date : Int
  event_type : String
  status : String
deriving DecidableEq, Repr

/-- The composite ledger key (user, local date, entry type) declared unique
by `uq_reminder_user_date_type`. -/
def remKey (r : ReminderRow) : Int × Int × String :=
  (r.telegram_user_id, r.local_date, r.event_type)

/-- Relational state read and written by one sweep, plus the log of
notification sends attempted (`bot.send_message` calls). -/
structure SweepState where
  events : List Event
  reminders : List ReminderRow
  dispatches : List (Int × Int × String)
deriving Repr

/-- The sweep's `session.query(Reminder).filter(...)` dedup lookup. -/
def reminderExists (rs : List ReminderRow) (uid d : Int) (t : String) : Bool :=
  rs.any (fun r => r.telegram_user_id == uid && r.local_date == d && r.event_type == t)

/-- The sweep's `session.query(Event).filter(...)` lookup for an existing
entry of the required type today. -/
def eventExists (es : List Event) (uid d : Int) (t : String) : Bool :=
  es.any (fun e => e.telegram_user_id == uid && e.local_date == d && e.event_type == t)

/-- One required-type step of `_send_reminders_async`: skip if a ledger
row exists, skip if an event of the type exists today, else attempt the
send and — only if the send succeeded — insert the ledger row (a failed
send is logged and leaves no row). -/
def sweepUserType (sendOk : Int → String → Bool) (uid d : Int)
    (st : SweepState) (t : String) : SweepState :=
  if reminderExists st.reminders uid d t then st
  else if eventExists st.events uid d t then st
  else if sendOk uid t then
    { st with dispatches := st.dispatches ++ [(uid, d, t)]
              reminders := st.reminders ++
                [{ telegram_user_id := uid, local_date := d, event_type := t,
                   status := "sent" }] }
  else
    { st with dispatches := st.dispatches ++ [(uid, d, t)] }

/-- Per-user step of the sweep: compute the user's local time and date
(`clock` maps the user's timezone to them, for this sweep's shared UTC
now), gate on the 5-minute due window, then fold over the user's required
types. -/
def sweepUser (clock : String → Time × Int) (sendOk : Int → String → Bool)
    (st : SweepState) (u : UserRec) : SweepState :=
  let localNow := clock u.timezone
  if !is_time_in_range localNow.1 u.reminder_time_local 5 then st
  else u.reminder_required_types.foldl
    (sweepUserType sendOk u.telegram_user_id localNow.2) st

/-- `send_due_reminders_task` / `_send_reminders_async`: fold the per-user
step over all users. -/
def send_due_reminders (clock : String → Time × Int)
    (sendOk : Int → String → Bool) (users : List UserRec)
    (st : SweepState) : SweepState :=
  users.foldl (sweepUser clock sendOk) st

/-- Repeated scheduler ticks: each sweep runs with its own clock reading
and its own send outcomes. -/
def runSweeps :
    List ((String → Time × Int) × (Int → String → Bool)) →
    List UserRec → SweepState → SweepState
  | [], _, st => st
  | c :: rest, users, st => runSweeps rest users (send_due_reminders c.1 c.2 users st)


/-! ### Sample fixtures and specification predicates used by the theorems -/

/-- The transition relation of the §4.2 state machine. -/
def stepOK (a b : String) : Prop :=
  (a = "queued" ∧ b = "processing") ∨
    (a = "processing" ∧ (b = "ok" ∨ b = "failed"))

instance : DecidableRel stepOK := fun a b => by
  unfold stepOK; infer_instance

/-- The ledger row inserted after a successful send. -/
def sentRow (uid d : Int) (t : String) : ReminderRow :=
  { telegram_user_id := uid, local_date := d, event_type := t, status := "sent" }

/-- Soundness of a sweep relative to its starting state `st0`: events are
untouched, the ledger only grows, and every attempted dispatch or newly
inserted row beyond the start is for a key with no pre-existing ledger row
and no matching event at sweep start. -/
def SweepSound (st0 s : SweepState) : Prop :=
  s.events = st0.events ∧ st0.reminders ⊆ s.reminders
  ∧ (∀ k, k ∈ s.dispatches → k ∈ st0.dispatches ∨
      ((∀ r ∈ st0.reminders, remKey r ≠ k)
       ∧ ∀ e ∈ st0.events,
          ¬(e.telegram_user_id = k.1 ∧ e.local_date = k.2.1 ∧ e.event_type = k.2.2)))
  ∧ ∀ r ∈ s.reminders, r ∈ st0.reminders ∨
      ((∀ r' ∈ st0.reminders, remKey r' ≠ remKey r)
       ∧ ∀ e ∈ st0.events,
          ¬(e.telegram_user_id = r.telegram_user_id ∧ e.local_date = r.local_date
            ∧ e.event_type = r.event_type))

/-- A sample oracle environment for concrete witnesses. -/
def sampleEnv : PipeEnv :=
  { download := Except.ok (), enrich := Except.ok (JVal.jobj []),
    classify := Except.ok [], notify := Except.ok () }

/-- A sample event row already in terminal status `ok`. -/
def sampleOkEvent : Event :=
  { telegram_user_id := 1, chat_id := 1, message_id := 1,
    event_type := "reflection", source_type := "voice", created_at_utc := 0,
    local_date := 0, raw_file_s3_key := some "k",
    raw_file_mime := some "audio/ogg", raw_file_meta := none,
    text_content := some "hello", processing_status := "ok",
    processing_error := none, derived_meta := none }

/-- A sample event row already in terminal status `failed`. -/
def sampleFailedEvent : Event :=
  { telegram_user_id := 2, chat_id := 2, message_id := 2,
    event_type := "mindform", source_type := "photo", created_at_utc := 0,
    local_date := 1, raw_file_s3_key := some "p",
    raw_file_mime := some "image/jpeg", raw_file_meta := none,
    text_content := none, processing_status := "failed",
    processing_error := some "boom", derived_meta := none }

/-- A sample event row still in status `queued`. -/
def sampleQueuedEvent : Event :=
  { telegram_user_id := 3, chat_id := 3, message_id := 3,
    event_type := "reflection", source_type := "voice", created_at_utc := 0,
    local_date := 2, raw_file_s3_key := some "v",
    raw_file_mime := some "audio/ogg", raw_file_meta := none,
    text_content := none, processing_status := "queued",
    processing_error := none, derived_meta := none }

/-- Demo environment for C10: a transcription that returns a whitespace
transcript. -/
def sampleBlankEnv : PipeEnv :=
  { download := Except.ok (),
    enrich := Except.ok (JVal.jobj [("text", JVal.jstr " ")]),
    classify := Except.ok [], notify := Except.ok () }

/-- Demo fixture for C2: a user requiring reflection and mindform. -/
def demoUser : UserRec :=
  { telegram_user_id := 1, timezone := "Europe/Berlin",
    reminder_time_local := ⟨23, 0, 0⟩,
    reminder_required_types := ["reflection", "mindform"] }

/-- Demo fixture for C2: the user table. -/
def demoUsers : List UserRec := [demoUser]

/-- Demo fixture for C2: the user already has a reflection entry today. -/
def demoEvent : Event :=
  { telegram_user_id := 1, chat_id := 1, message_id := 1,
    event_type := "reflection", source_type := "text", created_at_utc := 0,
    local_date := 0, raw_file_s3_key := none, raw_file_mime := none,
    raw_file_meta := none, text_content := some "today",
    processing_status := "ok", processing_error := none, derived_meta := none }

/-- Demo fixture for C2: sweep start state. -/
def demoState : SweepState :=
  { events := [demoEvent], reminders := [], dispatches := [] }

/-- Demo fixture for C2: every user reads local time 23:01 on day 0. -/
def demoClock : String → Time × Int := fun _ => (⟨23, 1, 0⟩, 0)

/-- Demo fixture for C2: every send succeeds. -/
def demoSend : Int → String → Bool := fun _ _ => true

end Reflectica

namespace Reflectica

/-! ## Helper lemmas about the pipeline tasks -/

/-- The `queued` guard of the transcription task: on any other status the
invocation returns without touching the row and without notifying. -/
theorem transcribe_guard_noop (env : PipeEnv) (ev : Event)
    (h : ev.processing_status ≠ "queued") :
    transcribe_audio_task env ev = ⟨ev, false, []⟩ := by
  unfold transcribe_audio_task
  simp [h]

/-- The `queued` guard of the OCR task. -/
theorem ocr_guard_noop (env : PipeEnv) (ev : Event)
    (h : ev.processing_status ≠ "queued") :
    ocr_handwriting_task env ev = ⟨ev, false, []⟩ := by
  unfold ocr_handwriting_task
  simp [h]

/-- The `queued` guard of the face-analysis task. -/
theorem face_guard_noop (env : PipeEnv) (ev : Event)
    (h : ev.processing_status ≠ "queued") :
    analyze_face_task env ev = ⟨ev, false, []⟩ := by
  unfold analyze_face_task
  simp [h]

/-- A transcription run on a `queued` row ends in a terminal status. -/
theorem transcribe_queued_terminal (env : PipeEnv) (ev : Event)
    (h : ev.processing_status = "queued") :
    (transcribe_audio_task env ev).event.processing_status = "ok" ∨
      (transcribe_audio_task env ev).event.processing_status = "failed" := by
  unfold transcribe_audio_task
  simp only [h, bne_self_eq_false, Bool.false_eq_true, if_false]
  repeat' split
  all_goals simp [taskFail, taskSucceed]

/-- An OCR run on a `queued` row ends in a terminal status. -/
theorem ocr_queued_terminal (env : PipeEnv) (ev : Event)
    (h : ev.processing_status = "queued") :
    (ocr_handwriting_task env ev).event.processing_status = "ok" ∨
      (ocr_handwriting_task env ev).event.processing_status = "failed" := by
  unfold ocr_handwriting_task
  simp only [h, bne_self_eq_false, Bool.false_eq_true, if_false]
  repeat' split
  all_goals simp [taskFail, taskSucceed]

/-- A face-analysis run on a `queued` row ends in a terminal status. -/
theorem face_queued_terminal (env : PipeEnv) (ev : Event)
    (h : ev.processing_status = "queued") :
    (analyze_face_task env ev).event.processing_status = "ok" ∨
      (analyze_face_task env ev).event.processing_status = "failed" := by
  unfold analyze_face_task
  simp only [h, bne_self_eq_false, Bool.false_eq_true, if_false]
  repeat' split
  all_goals simp [taskFail, taskSucceed]

/-! ## C1 — the queued guard makes redelivery a no-op -/

/-- **C1.** Invoking any pipeline task on an event whose stored status is
not `queued` is a no-op: the row is returned unchanged (every column equal)
and no notification is attempted; in particular a second invocation of any
task after a first invocation on a `queued` row completed is a no-op with
no duplicate notification. -/
theorem pipeline_guard_idempotent :
    (∀ (env : PipeEnv) (ev : Event), ev.processing_status ≠ "queued" →
        transcribe_audio_task env ev = ⟨ev, false, []⟩
      ∧ ocr_handwriting_task env ev = ⟨ev, false, []⟩
      ∧ analyze_face_task env ev = ⟨ev, false, []⟩)
    ∧ (∀ (env env' : PipeEnv) (ev : Event), ev.processing_status = "queued" →
        transcribe_audio_task env' (transcribe_audio_task env ev).event =
          ⟨(transcribe_audio_task env ev).event, false, []⟩
      ∧ ocr_handwriting_task env' (ocr_handwriting_task env ev).event =
          ⟨(ocr_handwriting_task env ev).event, false, []⟩
      ∧ analyze_face_task env' (analyze_face_task env ev).event =
          ⟨(analyze_face_task env ev).event, false, []⟩) := by
  constructor
  · intro env ev h
    exact ⟨transcribe_guard_noop env ev h, ocr_guard_noop env ev h,
      face_guard_noop env ev h⟩
  · intro env env' ev h
    refine ⟨transcribe_guard_noop env' _ ?_, ocr_guard_noop env' _ ?_,
      face_guard_noop env' _ ?_⟩
    · rcases transcribe_queued_terminal env ev h with h' | h' <;> simp [h']
    · rcases ocr_queued_terminal env ev h with h' | h' <;> simp [h']
    · rcases face_queued_terminal env ev h with h' | h' <;> simp [h']

/-- Witness for C1: a terminal (`ok`) row is untouched by a redelivered
transcription job. -/
theorem pipeline_guard_idempotent_witness :
    transcribe_audio_task sampleEnv sampleOkEvent =
      { event := sampleOkEvent, notified := false, trace := [] } :=
  (pipeline_guard_idempotent.1 sampleEnv sampleOkEvent (by decide)).1

/-! ## C3 — processing_status is monotonic -/


/-- The statuses committed by a transcription run, prefixed with the
initial status, form a chain of allowed transitions. -/
theorem transcribe_trace_chain (env : PipeEnv) (ev : Event) :
    List.Chain' stepOK (ev.processing_status :: (transcribe_audio_task env ev).trace) := by
  by_cases h : ev.processing_status = "queued"
  · unfold transcribe_audio_task
    simp only [h, bne_self_eq_false, Bool.false_eq_true, if_false]
    repeat' split
    all_goals simp [taskFail, taskSucceed, h, stepOK, List.chain'_cons]
  · rw [transcribe_guard_noop env ev h]
    simp

/-- The statuses committed by an OCR run form a chain. -/
theorem ocr_trace_chain (env : PipeEnv) (ev : Event) :
    List.Chain' stepOK (ev.processing_status :: (ocr_handwriting_task env ev).trace) := by
  by_cases h : ev.processing_status = "queued"
  · unfold ocr_handwriting_task
    simp only [h, bne_self_eq_false, Bool.false_eq_true, if_false]
    repeat' split
    all_goals simp [taskFail, taskSucceed, h, stepOK, List.chain'_cons]
  · rw [ocr_guard_noop env ev h]
    simp

/-- The statuses committed by a face-analysis run form a chain. -/
theorem face_trace_chain (env : PipeEnv) (ev : Event) :
    List.Chain' stepOK (ev.processing_status :: (analyze_face_task env ev).trace) := by
  by_cases h : ev.processing_status = "queued"
  · unfold analyze_face_task
    simp only [h, bne_self_eq_false, Bool.false_eq_true, if_false]
    repeat' split
    all_goals simp [taskFail, taskSucceed, h, stepOK, List.chain'_cons]
  · rw [face_guard_noop env ev h]
    simp

/-- A fold step that preserves a predicate preserves it over the fold. -/
theorem foldl_invariant {α β : Type} (P : β → Prop) (f : β → α → β)
    (hf : ∀ b a, P b → P (f b a)) :
    ∀ (l : List α) (b : β), P b → P (l.foldl f b) := by
  intro l
  induction l with
  | nil => intro b hb; exact hb
  | cons a t ih => intro b hb; exact ih _ (hf b a hb)

/-- The scheduler sweep never writes to the events table. -/
theorem send_due_reminders_events_eq (clock : String → Time × Int)
    (sendOk : Int → String → Bool) (users : List UserRec) (st : SweepState) :
    (send_due_reminders clock sendOk users st).events = st.events := by
  have hty : ∀ sendOk uid d st t,
      (sweepUserType sendOk uid d st t).events = st.events := by
    intro sendOk uid d st t
    unfold sweepUserType
    repeat' split
    all_goals rfl
  have huser : ∀ st u, (sweepUser clock sendOk st u).events = st.events := by
    intro st u
    unfold sweepUser
    dsimp only
    split
    · rfl
    · exact foldl_invariant (fun s => s.events = st.events)
        (sweepUserType sendOk u.telegram_user_id (clock u.timezone).2)
        (fun b a hb => (hty _ _ _ b a).trans hb) _ st rfl
  exact foldl_invariant (fun s => s.events = st.events)
    (sweepUser clock sendOk)
    (fun b a hb => (huser b a).trans hb) users st rfl

/-- **C3.** `processing_status` moves only along
queued → processing → ok and queued → processing → failed: every pipeline
invocation's committed status sequence is a chain of those transitions; a
row whose status is already terminal (`ok` or `failed`) is returned
unchanged by every pipeline task; event creation only introduces the
initial statuses `ok` or `queued`; and the reminder scheduler never
touches the events table at all. -/
theorem processing_status_monotonic :
    (∀ (env : PipeEnv) (ev : Event),
        List.Chain' stepOK (ev.processing_status :: (transcribe_audio_task env ev).trace)
      ∧ List.Chain' stepOK (ev.processing_status :: (ocr_handwriting_task env ev).trace)
      ∧ List.Chain' stepOK (ev.processing_status :: (analyze_face_task env ev).trace))
    ∧ (∀ (env : PipeEnv) (ev : Event),
        ev.processing_status = "ok" ∨ ev.processing_status = "failed" →
          (transcribe_audio_task env ev).event = ev
        ∧ (ocr_handwriting_task env ev).event = ev
        ∧ (analyze_face_task env ev).event = ev)
    ∧ (∀ (uid cid mid : Int) (et st : String) (ts : Nat) (d : Int)
        (k m : Option String) (fm : Option JObj) (txt : Option String),
        (create_event_from_message uid cid mid et st ts d k m fm
          txt).processing_status = "ok"
        ∨ (create_event_from_message uid cid mid et st ts d k m fm
          txt).processing_status = "queued")
    ∧ (∀ (clock : String → Time × Int) (sendOk : Int → String → Bool)
        (users : List UserRec) (st : SweepState),
        (send_due_reminders clock sendOk users st).events = st.events) := by
  refine ⟨?_, ?_, ?_, send_due_reminders_events_eq⟩
  · intro env ev
    exact ⟨transcribe_trace_chain env ev, ocr_trace_chain env ev,
      face_trace_chain env ev⟩
  · intro env ev h
    have hne : ev.processing_status ≠ "queued" := by
      rcases h with h | h <;> simp [h]
    rw [transcribe_guard_noop env ev hne, ocr_guard_noop env ev hne,
      face_guard_noop env ev hne]
    exact ⟨rfl, rfl, rfl⟩
  · intro uid cid mid et st ts d k m fm txt
    unfold create_event_from_message
    split
    · left; rfl
    · right; rfl

/-- Witness for C3: a terminal `failed` row is untouched by all three
tasks. -/
theorem processing_status_monotonic_witness :
    (transcribe_audio_task sampleEnv sampleFailedEvent).event = sampleFailedEvent :=
  (processing_status_monotonic.2.1 sampleEnv sampleFailedEvent (Or.inr rfl)).1

/-! ## C2 — reminder ledger dedup -/


/-- The ledger dedup lookup fails exactly when no row carries the key. -/
theorem reminderExists_false_iff (rs : List ReminderRow) (uid d : Int) (t : String) :
    reminderExists rs uid d t = false ↔ ∀ r ∈ rs, remKey r ≠ (uid, d, t) := by
  unfold reminderExists
  rw [List.any_eq_false]
  constructor
  · intro h r hr heq
    apply h r hr
    have e1 : r.telegram_user_id = uid := congrArg (fun p => p.1) heq
    have e2 : r.local_date = d := congrArg (fun p => p.2.1) heq
    have e3 : r.event_type = t := congrArg (fun p => p.2.2) heq
    simp [e1, e2, e3]
  · intro h r hr heq
    apply h r hr
    simp only [Bool.and_eq_true, beq_iff_eq] at heq
    simp [remKey, heq.1.1, heq.1.2, heq.2]

/-- The per-day event lookup fails exactly when no event matches. -/
theorem eventExists_false_iff (es : List Event) (uid d : Int) (t : String) :
    eventExists es uid d t = false ↔
      ∀ e ∈ es, ¬(e.telegram_user_id = uid ∧ e.local_date = d ∧ e.event_type = t) := by
  simp [eventExists, List.any_eq_false]

/-- Case analysis of one required-type step: either it skips (state
untouched), or no ledger row with the key and no matching event existed,
the dispatch was attempted, and the ledger either gained exactly the row
for this key (send succeeded) or stayed unchanged (send failed). -/
theorem sweepUserType_cases (sendOk : Int → String → Bool) (uid d : Int)
    (st : SweepState) (t : String) :
    sweepUserType sendOk uid d st t = st
    ∨ ((∀ r ∈ st.reminders, remKey r ≠ (uid, d, t))
       ∧ eventExists st.events uid d t = false
       ∧ (sweepUserType sendOk uid d st t).events = st.events
       ∧ ((sweepUserType sendOk uid d st t).reminders = st.reminders
          ∨ (sweepUserType sendOk uid d st t).reminders =
              st.reminders ++ [sentRow uid d t])
       ∧ (sweepUserType sendOk uid d st t).dispatches =
           st.dispatches ++ [(uid, d, t)]) := by
  unfold sweepUserType
  by_cases h1 : reminderExists st.reminders uid d t
  · left; simp [h1]
  · by_cases h2 : eventExists st.events uid d t
    · left; simp [h1, h2]
    · right
      have h1' := (reminderExists_false_iff st.reminders uid d t).1
        (Bool.not_eq_true _ ▸ h1)
      have h2' : eventExists st.events uid d t = false := Bool.not_eq_true _ ▸ h2
      by_cases h3 : sendOk uid t
      · refine ⟨h1', h2', ?_, ?_, ?_⟩ <;> simp [h1, h2, h3, h2', sentRow]
      · refine ⟨h1', h2', ?_, ?_, ?_⟩ <;> simp [h1, h2, h3, h2', sentRow]

/-- One required-type step keeps ledger keys duplicate-free. -/
theorem sweepUserType_nodup (sendOk : Int → String → Bool) (uid d : Int)
    (st : SweepState) (t : String)
    (h : (st.reminders.map remKey).Nodup) :
    ((sweepUserType sendOk uid d st t).reminders.map remKey).Nodup := by
  rcases sweepUserType_cases sendOk uid d st t with hc | ⟨hfresh, _, _, hrem, _⟩
  · rw [hc]; exact h
  · rcases hrem with hrem | hrem
    · rw [hrem]; exact h
    · rw [hrem, List.map_append]
      have hnotin : (uid, d, t) ∉ st.reminders.map remKey := by
        intro hmem
        rcases List.mem_map.1 hmem with ⟨r, hr, hkey⟩
        exact hfresh r hr hkey
      refine List.nodup_append.2 ⟨h, List.nodup_singleton _, ?_⟩
      intro x hx hx2
      have : x = (uid, d, t) := by simpa [remKey, sentRow] using hx2
      subst this
      exact hnotin hx

/-- One sweep keeps ledger keys duplicate-free. -/
theorem send_due_reminders_nodup (clock : String → Time × Int)
    (sendOk : Int → String → Bool) (users : List UserRec) (st : SweepState)
    (h : (st.reminders.map remKey).Nodup) :
    ((send_due_reminders clock sendOk users st).reminders.map remKey).Nodup := by
  have huser : ∀ st u, (st.reminders.map remKey).Nodup →
      ((sweepUser clock sendOk st u).reminders.map remKey).Nodup := by
    intro st u hst
    unfold sweepUser
    dsimp only
    split
    · exact hst
    · exact foldl_invariant (fun s => (s.reminders.map remKey).Nodup)
        (sweepUserType sendOk u.telegram_user_id (clock u.timezone).2)
        (fun b a hb => sweepUserType_nodup _ _ _ b a hb) _ st hst
  exact foldl_invariant (fun s => (s.reminders.map remKey).Nodup)
    (sweepUser clock sendOk) (fun b a hb => huser b a hb) users st h


/-- One required-type step preserves sweep soundness. -/
theorem sweepUserType_sound (st0 : SweepState) (sendOk : Int → String → Bool)
    (uid d : Int) (s : SweepState) (t : String)
    (h : SweepSound st0 s) : SweepSound st0 (sweepUserType sendOk uid d s t) := by
  obtain ⟨hev, hsub, hdisp, hrem⟩ := h
  rcases sweepUserType_cases sendOk uid d s t with hc | ⟨hfresh, hnoev, hev', hrem', hdisp'⟩
  · rw [hc]; exact ⟨hev, hsub, hdisp, hrem⟩
  · have hfresh0 : ∀ r ∈ st0.reminders, remKey r ≠ (uid, d, t) :=
      fun r hr => hfresh r (hsub hr)
    have hnoev0 : ∀ e ∈ st0.events,
        ¬(e.telegram_user_id = uid ∧ e.local_date = d ∧ e.event_type = t) := by
      rw [hev] at hnoev
      exact (eventExists_false_iff st0.events uid d t).1 hnoev
    refine ⟨by rw [hev', hev], ?_, ?_, ?_⟩
    · rcases hrem' with hrem' | hrem'
      · rw [hrem']; exact hsub
      · rw [hrem']; exact hsub.trans (List.subset_append_left _ _)
    · intro k hk
      rw [hdisp'] at hk
      rcases List.mem_append.1 hk with hk | hk
      · exact hdisp k hk
      · have : k = (uid, d, t) := by simpa using hk
        subst this
        exact Or.inr ⟨hfresh0, hnoev0⟩
    · intro r hr
      rcases hrem' with hrem' | hrem'
      · rw [hrem'] at hr; exact hrem r hr
      · rw [hrem'] at hr
        rcases List.mem_append.1 hr with hr | hr
        · exact hrem r hr
        · have : r = sentRow uid d t := by simpa using hr
          subst this
          exact Or.inr ⟨fun r' hr' => hfresh0 r' hr', hnoev0⟩

/-- A whole sweep is sound relative to its starting state. -/
theorem send_due_reminders_sound (clock : String → Time × Int)
    (sendOk : Int → String → Bool) (users : List UserRec) (st : SweepState) :
    SweepSound st (send_due_reminders clock sendOk users st) := by
  have hinit : SweepSound st st :=
    ⟨rfl, fun x hx => hx, fun k hk => Or.inl hk, fun r hr => Or.inl hr⟩
  have huser : ∀ s u, SweepSound st s → SweepSound st (sweepUser clock sendOk s u) := by
    intro s u hs
    unfold sweepUser
    dsimp only
    split
    · exact hs
    · exact foldl_invariant (SweepSound st)
        (sweepUserType sendOk u.telegram_user_id (clock u.timezone).2)
        (fun b a hb => sweepUserType_sound st _ _ _ b a hb) _ s hs
  exact foldl_invariant (SweepSound st) (sweepUser clock sendOk)
    (fun b a hb => huser b a hb) users st hinit

/-- **C2.** For each (user, local date, entry type) key, at most one
reminder ledger row ever exists no matter how many scheduler sweeps run
(key uniqueness is preserved by every sequence of sweeps); and a sweep
attempts a reminder dispatch for a key, or inserts a new ledger row with
that key, only when at sweep start there was no ledger row with the key
and no event of that type for the user on that local date — in every other
case the type is skipped without dispatching anything. -/
theorem reminder_dedup :
    (∀ (cfgs : List ((String → Time × Int) × (Int → String → Bool)))
        (users : List UserRec) (st : SweepState),
        (st.reminders.map remKey).Nodup →
        ((runSweeps cfgs users st).reminders.map remKey).Nodup)
    ∧ (∀ (clock : String → Time × Int) (sendOk : Int → String → Bool)
        (users : List UserRec) (st : SweepState), st.dispatches = [] →
        ∀ (uid d : Int) (t : String),
          ((uid, d, t) ∈ (send_due_reminders clock sendOk users st).dispatches
            ∨ ∃ r ∈ (send_due_reminders clock sendOk users st).reminders,
                r ∉ st.reminders ∧ remKey r = (uid, d, t)) →
          (∀ r ∈ st.reminders, remKey r ≠ (uid, d, t))
          ∧ ∀ e ∈ st.events,
              ¬(e.telegram_user_id = uid ∧ e.local_date = d ∧ e.event_type = t)) := by
  constructor
  · intro cfgs
    induction cfgs with
    | nil => intro users st h; exact h
    | cons c rest ih =>
        intro users st h
        exact ih users _ (send_due_reminders_nodup c.1 c.2 users st h)
  · intro clock sendOk users st hemp uid d t hk
    obtain ⟨hev, hsub, hdisp, hrem⟩ := send_due_reminders_sound clock sendOk users st
    rcases hk with hk | ⟨r, hr, hrnew, hrkey⟩
    · rcases hdisp (uid, d, t) hk with hk0 | hcond
      · rw [hemp] at hk0; cases hk0
      · exact hcond
    · rcases hrem r hr with hr0 | hcond
      · exact absurd hr0 hrnew
      · have h1 : r.telegram_user_id = uid ∧ r.local_date = d ∧ r.event_type = t := by
          simpa [remKey, Prod.ext_iff] using hrkey
        refine ⟨fun r' hr' => ?_, ?_⟩
        · rw [← hrkey]; exact hcond.1 r' hr'
        · rw [← h1.1, ← h1.2.1, ← h1.2.2]; exact hcond.2


/-! ## C6 — exactly one JSON-repair retry, then ParseError -/

/-- **C6.** For each enrichment operation: when the first response fails
to parse, the client makes exactly one more provider call on the same
input and returns whatever that repair call parses to; when the repair
response also fails to parse, the operation fails with the `ParseError`
`ValueError`; when the first response parses, no retry happens (one call
total); and the pipeline persists an enrichment failure as status `failed`
with the error message stored on the event. -/
theorem enrichment_repair_retry :
    (∀ (provider : Nat → Option JVal) (j : JVal),
        provider 0 = none → provider 1 = some j →
        transcribe_audio provider = (Except.ok j, 2)
      ∧ ocr_handwriting provider = (Except.ok j, 2)
      ∧ analyze_face provider = (Except.ok j, 2))
    ∧ (∀ provider : Nat → Option JVal, provider 0 = none → provider 1 = none →
        transcribe_audio provider = (Except.error (GemError.parseError gemRepairFailMsg), 2)
      ∧ ocr_handwriting provider = (Except.error (GemError.parseError gemRepairFailMsg), 2)
      ∧ analyze_face provider = (Except.error (GemError.parseError gemRepairFailMsg), 2))
    ∧ (∀ (provider : Nat → Option JVal) (j : JVal), provider 0 = some j →
        (transcribe_audio provider).2 = 1
      ∧ (ocr_handwriting provider).2 = 1
      ∧ (analyze_face provider).2 = 1)
    ∧ (∀ (env : PipeEnv) (ev : Event) (e : String), ev.processing_status = "queued" →
        env.download = Except.ok () → env.enrich = Except.error e →
        (transcribe_audio_task env ev).event.processing_status = "failed"
        ∧ (transcribe_audio_task env ev).event.processing_error = some e) := by
  refine ⟨?_, ?_, ?_, ?_⟩
  · intro provider j h0 h1
    refine ⟨?_, ?_, ?_⟩ <;>
      simp [transcribe_audio, ocr_handwriting, analyze_face, retry_with_repair, h0, h1]
  · intro provider h0 h1
    refine ⟨?_, ?_, ?_⟩ <;>
      simp [transcribe_audio, ocr_handwriting, analyze_face, retry_with_repair, h0, h1]
  · intro provider j h0
    refine ⟨?_, ?_, ?_⟩ <;>
      simp only [transcribe_audio, ocr_handwriting, analyze_face, h0] <;> split <;> rfl
  · intro env ev e hq hd he
    unfold transcribe_audio_task
    simp [hq, hd, he, taskFail]

/-- Witness for C6: both responses unparseable on a transcription ends in
the `ParseError` after exactly two provider calls. -/
theorem enrichment_repair_retry_witness :
    transcribe_audio (fun _ => none) =
      (Except.error (GemError.parseError gemRepairFailMsg), 2) :=
  (enrichment_repair_retry.2.1 (fun _ => none) rfl rfl).1

/-! ## C7 — failures are contained at the pipeline boundary -/

/-- **C7.** For a `queued` event: a blob-fetch failure or an enrichment
failure after the guard is persisted as status `failed` with the error
message stored (all three tasks); the transcription happy path ends `ok`
with the notification attempted; every invocation ends in a terminal
status (no exception escapes the task body, which is modelled as a total
function); and the outcome of the best-effort post-success notification
has no effect whatsoever on the task's result. -/
theorem pipeline_failure_containment :
    ∀ (env : PipeEnv) (ev : Event),
      (∀ e, ev.processing_status = "queued" → env.download = Except.error e →
          ((transcribe_audio_task env ev).event.processing_status = "failed"
            ∧ (transcribe_audio_task env ev).event.processing_error = some e)
        ∧ ((ocr_handwriting_task env ev).event.processing_status = "failed"
            ∧ (ocr_handwriting_task env ev).event.processing_error = some e)
        ∧ ((analyze_face_task env ev).event.processing_status = "failed"
            ∧ (analyze_face_task env ev).event.processing_error = some e))
      ∧ (∀ e, ev.processing_status = "queued" → env.download = Except.ok () →
          env.enrich = Except.error e →
          ((transcribe_audio_task env ev).event.processing_status = "failed"
            ∧ (transcribe_audio_task env ev).event.processing_error = some e)
        ∧ ((ocr_handwriting_task env ev).event.processing_status = "failed"
            ∧ (ocr_handwriting_task env ev).event.processing_error = some e)
        ∧ ((analyze_face_task env ev).event.processing_status = "failed"
            ∧ (analyze_face_task env ev).event.processing_error = some e))
      ∧ (∀ r, ev.processing_status = "queued" → env.download = Except.ok () →
          env.enrich = Except.ok (JVal.jobj r) →
          (jget r "text" = none ∨ ∃ s, jget r "text" = some (JVal.jstr s)) →
          (transcribe_audio_task env ev).event.processing_status = "ok"
          ∧ (transcribe_audio_task env ev).notified = true)
      ∧ (ev.processing_status = "queued" →
          ((transcribe_audio_task env ev).event.processing_status = "ok"
            ∨ (transcribe_audio_task env ev).event.processing_status = "failed")
        ∧ ((ocr_handwriting_task env ev).event.processing_status = "ok"
            ∨ (ocr_handwriting_task env ev).event.processing_status = "failed")
        ∧ ((analyze_face_task env ev).event.processing_status = "ok"
            ∨ (analyze_face_task env ev).event.processing_status = "failed"))
      ∧ (∀ n, transcribe_audio_task { env with notify := n } ev = transcribe_audio_task env ev
        ∧ ocr_handwriting_task { env with notify := n } ev = ocr_handwriting_task env ev
        ∧ analyze_face_task { env with notify := n } ev = analyze_face_task env ev) := by
  intro env ev
  refine ⟨?_, ?_, ?_, ?_, ?_⟩
  · intro e hq hd
    refine ⟨?_, ?_, ?_⟩
    · unfold transcribe_audio_task; simp [hq, hd, taskFail]
    · unfold ocr_handwriting_task; simp [hq, hd, taskFail]
    · unfold analyze_face_task; simp [hq, hd, taskFail]
  · intro e hq hd he
    refine ⟨?_, ?_, ?_⟩
    · unfold transcribe_audio_task; simp [hq, hd, he, taskFail]
    · unfold ocr_handwriting_task; simp [hq, hd, he, taskFail]
    · unfold analyze_face_task; simp [hq, hd, he, taskFail]
  · intro r hq hd he htext
    unfold transcribe_audio_task
    rcases htext with htext | ⟨s, htext⟩
    · simp [hq, hd, he, htext, taskSucceed]
    · simp only [hq, bne_self_eq_false, Bool.false_eq_true, if_false, hd, he, htext]
      repeat' split
      all_goals simp [taskSucceed]
  · intro hq
    exact ⟨transcribe_queued_terminal env ev hq, ocr_queued_terminal env ev hq,
      face_queued_terminal env ev hq⟩
  · intro n
    cases env
    exact ⟨rfl, rfl, rfl⟩

/-- Witness for C7: a blob-fetch failure on a queued row is persisted as
`failed` with the message stored. -/
theorem pipeline_failure_containment_witness :
    (transcribe_audio_task
      { download := Except.error "S3Error: key not found",
        enrich := Except.ok (JVal.jobj []), classify := Except.ok [],
        notify := Except.ok () } sampleQueuedEvent).event.processing_status = "failed"
    ∧ (transcribe_audio_task
      { download := Except.error "S3Error: key not found",
        enrich := Except.ok (JVal.jobj []), classify := Except.ok [],
        notify := Except.ok () } sampleQueuedEvent).event.processing_error =
        some "S3Error: key not found" :=
  ((pipeline_failure_containment _ sampleQueuedEvent).1 "S3Error: key not found"
    rfl rfl).1

/-! ## Lookup lemmas for association-list JSON objects -/

/-- `jget` over a cons cell. -/
theorem jget_cons (p : String × JVal) (d : JObj) (k : String) :
    jget (p :: d) k = if p.1 == k then some p.2 else jget d k := by
  unfold jget
  by_cases h : p.1 == k
  · simp [List.find?, h]
  · simp [List.find?, h]

/-- A binding found in the left part of an append is found in the whole. -/
theorem jget_append_left {d1 : JObj} (d2 : JObj) {k : String} {v : JVal}
    (h : jget d1 k = some v) : jget (d1 ++ d2) k = some v := by
  induction d1 with
  | nil => simp [jget] at h
  | cons p rest ih =>
      rw [List.cons_append, jget_cons]
      rw [jget_cons] at h
      by_cases hp : p.1 == k
      · simpa [hp] using h
      · rw [if_neg hp] at h ⊢
        exact ih h

/-- A key absent from the left part of an append is looked up on the
right. -/
theorem jget_append_right {d1 : JObj} (d2 : JObj) {k : String}
    (h : jget d1 k = none) : jget (d1 ++ d2) k = jget d2 k := by
  induction d1 with
  | nil => rfl
  | cons p rest ih =>
      rw [List.cons_append, jget_cons]
      rw [jget_cons] at h
      by_cases hp : p.1 == k
      · simp [hp] at h
      · rw [if_neg hp] at h ⊢
        exact ih h

/-- Backfilling a key makes it present, with the existing value kept. -/
theorem jget_jSetDefault_same (d : JObj) (k : String) (v : JVal) :
    jget (jSetDefault d k v) k = some ((jget d k).getD v) := by
  unfold jSetDefault
  cases h : jget d k with
  | some w => simp [h]
  | none =>
      simp only [h, Option.isSome_none, Bool.false_eq_true, if_false, Option.getD_none]
      rw [jget_append_right _ h, jget_cons]
      simp

/-- Backfilling never disturbs an existing binding. -/
theorem jget_jSetDefault_preserve {d : JObj} (k : String) (v : JVal)
    {q : String} {w : JVal} (h : jget d q = some w) :
    jget (jSetDefault d k v) q = some w := by
  unfold jSetDefault
  split
  · exact h
  · exact jget_append_left _ h

/-- Backfilling one key leaves lookups of other keys unchanged. -/
theorem jget_jSetDefault_ne (d : JObj) (k : String) (v : JVal)
    {q : String} (h : ¬q = k) : jget (jSetDefault d k v) q = jget d q := by
  unfold jSetDefault
  split
  · rfl
  · cases hq : jget d q with
    | some w => exact jget_append_left _ hq
    | none =>
        rw [jget_append_right _ hq, jget_cons]
        have : (k == q) = false := by
          simp [BEq.beq]
          intro he; exact h he.symm
        simp [this, jget]

/-! ## C8 — transcript reclassification -/

/-- `classify_text_content` always yields an `event_type` field holding a
string from the fixed vocabulary. -/
theorem classify_text_content_tag (resp : Option JVal) :
    ∃ t, jget (classify_text_content resp) "event_type" = some (JVal.jstr t)
      ∧ t ∈ textValidTypes := by
  cases resp with
  | none => exact ⟨"reflection", rfl, by decide⟩
  | some j =>
      cases j with
      | jobj fields =>
          cases hg : jget fields "event_type" with
          | none =>
              refine ⟨"reflection", ?_, by decide⟩
              simp only [classify_text_content]
              rw [hg]
              simp [jget_cons]
          | some v =>
              cases v with
              | jstr s =>
                  by_cases hs : textValidTypes.contains s
                  · have hs' : s ∈ textValidTypes := by simpa using hs
                    refine ⟨s, ?_, hs'⟩
                    simp only [classify_text_content]
                    rw [hg]
                    simp [jget_cons, hs']
                  · have hs' : s ∉ textValidTypes := by simpa using hs
                    refine ⟨"reflection", ?_, by decide⟩
                    simp only [classify_text_content]
                    rw [hg]
                    simp [jget_cons, hs']
              | jnull =>
                  refine ⟨"reflection", ?_, by decide⟩
                  simp only [classify_text_content]
                  rw [hg]
                  simp [jget_cons]
              | jbool b =>
                  refine ⟨"reflection", ?_, by decide⟩
                  simp only [classify_text_content]
                  rw [hg]
                  simp [jget_cons]
              | jnum q =>
                  refine ⟨"reflection", ?_, by decide⟩
                  simp only [classify_text_content]
                  rw [hg]
                  simp [jget_cons]
              | jarr l =>
                  refine ⟨"reflection", ?_, by decide⟩
                  simp only [classify_text_content]
                  rw [hg]
                  simp [jget_cons]
              | jobj f =>
                  refine ⟨"reflection", ?_, by decide⟩
                  simp only [classify_text_content]
                  rw [hg]
                  simp [jget_cons]
      | jnull => exact ⟨"reflection", rfl, by decide⟩
      | jbool b => exact ⟨"reflection", rfl, by decide⟩
      | jnum q => exact ⟨"reflection", rfl, by decide⟩
      | jstr s => exact ⟨"reflection", rfl, by decide⟩
      | jarr l => exact ⟨"reflection", rfl, by decide⟩

/-- Every vocabulary tag is a non-empty string. -/
theorem textValidTypes_ne_empty : ∀ t ∈ textValidTypes, t ≠ "" := by decide

/-- **C8.** After a successful transcription with a non-blank transcript,
the task re-runs text classification; when the classification call
returns (its result is always a vocabulary tag), the event's entry-type
tag is overwritten with that tag and the event still ends `ok`; when the
classification call raises, the original tag is kept and the event still
ends `ok`. -/
theorem transcript_reclassification :
    ∀ (env : PipeEnv) (ev : Event) (r : JObj) (s : String),
      ev.processing_status = "queued" → env.download = Except.ok () →
      env.enrich = Except.ok (JVal.jobj r) →
      jget r "text" = some (JVal.jstr s) → stripTruthy s = true →
      ((∀ e, env.classify = Except.error e →
          (transcribe_audio_task env ev).event.event_type = ev.event_type
          ∧ (transcribe_audio_task env ev).event.processing_status = "ok")
      ∧ (∀ resp, env.classify = Except.ok (classify_text_content resp) →
          ∃ t, jget (classify_text_content resp) "event_type" = some (JVal.jstr t)
            ∧ t ∈ textValidTypes
            ∧ (transcribe_audio_task env ev).event.event_type = t
            ∧ (transcribe_audio_task env ev).event.processing_status = "ok")) := by
  intro env ev r s hq hd he htext hst
  constructor
  · intro e hc
    unfold transcribe_audio_task
    simp [hq, hd, he, htext, hst, hc, taskSucceed]
  · intro resp hc
    obtain ⟨t, ht, htv⟩ := classify_text_content_tag resp
    have htne : (t != "") = true := by
      simpa using textValidTypes_ne_empty t htv
    refine ⟨t, ht, htv, ?_, ?_⟩ <;>
    · unfold transcribe_audio_task
      simp [hq, hd, he, htext, hst, hc, ht, htne, taskSucceed]

/-- Witness for C8: a queued voice note transcribed to "a vivid dream",
classified as `dream`, ends `ok` with its tag overwritten to `dream`. -/
theorem transcript_reclassification_witness :
    ∃ t, jget (classify_text_content
        (some (JVal.jobj [("event_type", JVal.jstr "dream")]))) "event_type"
          = some (JVal.jstr t)
      ∧ t ∈ textValidTypes
      ∧ (transcribe_audio_task
          { download := Except.ok (),
            enrich := Except.ok (JVal.jobj [("text", JVal.jstr "a vivid dream")]),
            classify := Except.ok (classify_text_content
              (some (JVal.jobj [("event_type", JVal.jstr "dream")]))),
            notify := Except.ok () } sampleQueuedEvent).event.event_type = t
      ∧ (transcribe_audio_task
          { download := Except.ok (),
            enrich := Except.ok (JVal.jobj [("text", JVal.jstr "a vivid dream")]),
            classify := Except.ok (classify_text_content
              (some (JVal.jobj [("event_type", JVal.jstr "dream")]))),
            notify := Except.ok () } sampleQueuedEvent).event.processing_status = "ok" :=
  (transcript_reclassification _ sampleQueuedEvent
      [("text", JVal.jstr "a vivid dream")] "a vivid dream"
      rfl rfl rfl rfl (by decide)).2
    (some (JVal.jobj [("event_type", JVal.jstr "dream")])) rfl

/-! ## C9 — defensive normalization of face-analysis responses -/

/-- `faceFillDefaults` never disturbs an existing binding. -/
theorem faceFillDefaults_preserve {d : JObj} {k : String} {v : JVal}
    (h : jget d k = some v) : jget (faceFillDefaults d) k = some v := by
  unfold faceFillDefaults
  exact jget_jSetDefault_preserve _ _ (jget_jSetDefault_preserve _ _
    (jget_jSetDefault_preserve _ _ (jget_jSetDefault_preserve _ _ h)))

/-- The emotion field is always present after backfill, defaulting to
`neutral`. -/
theorem faceFillDefaults_emotion (d : JObj) :
    (jget (faceFillDefaults d) "dominant_emotion").isSome = true
    ∧ (jget d "dominant_emotion" = none →
        jget (faceFillDefaults d) "dominant_emotion" = some (JVal.jstr "neutral")) := by
  unfold faceFillDefaults
  constructor
  · rw [jget_jSetDefault_ne _ _ _ (by decide), jget_jSetDefault_ne _ _ _ (by decide),
      jget_jSetDefault_ne _ _ _ (by decide), jget_jSetDefault_same]
    rfl
  · intro h
    rw [jget_jSetDefault_ne _ _ _ (by decide), jget_jSetDefault_ne _ _ _ (by decide),
      jget_jSetDefault_ne _ _ _ (by decide), jget_jSetDefault_same, h]
    rfl

/-- The stress field is always present after backfill, defaulting to 5. -/
theorem faceFillDefaults_stress (d : JObj) :
    (jget (faceFillDefaults d) "stress_level_0_10").isSome = true
    ∧ (jget d "stress_level_0_10" = none →
        jget (faceFillDefaults d) "stress_level_0_10" = some (JVal.jnum 5)) := by
  unfold faceFillDefaults
  constructor
  · rw [jget_jSetDefault_ne _ _ _ (by decide), jget_jSetDefault_ne _ _ _ (by decide),
      jget_jSetDefault_same]
    rfl
  · intro h
    rw [jget_jSetDefault_ne _ _ _ (by decide), jget_jSetDefault_ne _ _ _ (by decide),
      jget_jSetDefault_same, jget_jSetDefault_ne _ _ _ (by decide), h]
    rfl

/-- The confidence field is always present after backfill, defaulting to
0.3. -/
theorem faceFillDefaults_confidence (d : JObj) :
    (jget (faceFillDefaults d) "confidence").isSome = true
    ∧ (jget d "confidence" = none →
        jget (faceFillDefaults d) "confidence" = some (JVal.jnum (3 / 10))) := by
  unfold faceFillDefaults
  constructor
  · rw [jget_jSetDefault_ne _ _ _ (by decide), jget_jSetDefault_same]
    rfl
  · intro h
    rw [jget_jSetDefault_ne _ _ _ (by decide), jget_jSetDefault_same,
      jget_jSetDefault_ne _ _ _ (by decide), jget_jSetDefault_ne _ _ _ (by decide), h]
    rfl

/-- The notes field is always present after backfill, defaulting to the
placeholder string. -/
theorem faceFillDefaults_notes (d : JObj) :
    (jget (faceFillDefaults d) "notes").isSome = true
    ∧ (jget d "notes" = none →
        jget (faceFillDefaults d) "notes" = some (JVal.jstr "Response format incomplete")) := by
  unfold faceFillDefaults
  constructor
  · rw [jget_jSetDefault_same]
    rfl
  · intro h
    rw [jget_jSetDefault_same, jget_jSetDefault_ne _ _ _ (by decide),
      jget_jSetDefault_ne _ _ _ (by decide), jget_jSetDefault_ne _ _ _ (by decide), h]
    rfl

/-- **C9 counterexample.** The claim's normalization does not apply to
every parsed provider response: (i) a response parsed on the JSON-repair
retry path is returned exactly as parsed — a JSON list stays a list, with
no first-element extraction and no field backfill; (ii) on the first
attempt, a list whose *first* element is not a dict is normalized to the
empty result even when a later element is a dict — the first dict element
is not searched for. -/
theorem face_normalization_counterexample :
    (analyze_face (fun n => if n = 0 then none
        else some (JVal.jarr [JVal.jobj []]))).1
      = Except.ok (JVal.jarr [JVal.jobj []])
    ∧ jHasKey (JVal.jarr [JVal.jobj []]) "dominant_emotion" = false
    ∧ (analyze_face (fun _ => some (JVal.jarr
          [JVal.jnum 5, JVal.jobj [("dominant_emotion", JVal.jstr "happy")]]))).1
      = Except.ok (JVal.jobj
          [("dominant_emotion", JVal.jstr "neutral"),
           ("stress_level_0_10", JVal.jnum 5),
           ("confidence", JVal.jnum (3 / 10)),
           ("notes", JVal.jstr "Response format incomplete")]) :=
  ⟨rfl, rfl, rfl⟩

/-- **C9 amended.** For responses parsed on the *first* attempt the
face-analysis operation never fails because of response shape: the result
is always an object; a parsed list is replaced by its first element when
that element is a dict, else by the empty result; bindings of the
normalized base are kept; and each of the four required fields, when
missing, is backfilled with its conservative default (neutral, 5, 0.3,
placeholder notes).  A response parsed only on the JSON-repair retry is
returned exactly as parsed, with no normalization or backfill. -/
theorem face_normalization_amended :
    (∀ (provider : Nat → Option JVal) (parsed : JVal), provider 0 = some parsed →
      (analyze_face provider).2 = 1
      ∧ ∃ fields, (analyze_face provider).1 = Except.ok (JVal.jobj fields)
        ∧ (jget fields "dominant_emotion").isSome = true
        ∧ (jget fields "stress_level_0_10").isSome = true
        ∧ (jget fields "confidence").isSome = true
        ∧ (jget fields "notes").isSome = true
        ∧ (∀ k v, jget (faceBase parsed) k = some v → jget fields k = some v)
        ∧ (jget (faceBase parsed) "dominant_emotion" = none →
            jget fields "dominant_emotion" = some (JVal.jstr "neutral"))
        ∧ (jget (faceBase parsed) "stress_level_0_10" = none →
            jget fields "stress_level_0_10" = some (JVal.jnum 5))
        ∧ (jget (faceBase parsed) "confidence" = none →
            jget fields "confidence" = some (JVal.jnum (3 / 10)))
        ∧ (jget (faceBase parsed) "notes" = none →
            jget fields "notes" = some (JVal.jstr "Response format incomplete")))
    ∧ (∀ (provider : Nat → Option JVal) (j : JVal), provider 0 = none →
        provider 1 = some j → analyze_face provider = (Except.ok j, 2)) := by
  constructor
  · intro provider parsed h0
    refine ⟨by simp [analyze_face, h0], faceFillDefaults (faceBase parsed),
      by simp [analyze_face, h0], (faceFillDefaults_emotion _).1,
      (faceFillDefaults_stress _).1, (faceFillDefaults_confidence _).1,
      (faceFillDefaults_notes _).1, fun k v h => faceFillDefaults_preserve h,
      (faceFillDefaults_emotion _).2, (faceFillDefaults_stress _).2,
      (faceFillDefaults_confidence _).2, (faceFillDefaults_notes _).2⟩
  · intro provider j h0 h1
    simp [analyze_face, retry_with_repair, h0, h1]

/-- Witness for C9 (amended): an unparseable first response followed by a
parsed scalar on the repair path is returned as that scalar. -/
theorem face_normalization_amended_witness :
    analyze_face (fun n => if n = 0 then none else some (JVal.jnum 1)) =
      (Except.ok (JVal.jnum 1), 2) :=
  face_normalization_amended.2 (fun n => if n = 0 then none else some (JVal.jnum 1))
    (JVal.jnum 1) rfl rfl

/-! ## C10 — blank transcripts skip reclassification -/

/-- **C10.** When the transcript is empty or whitespace-only, the
transcription task skips text reclassification entirely: the entry-type
tag is kept, the (blank) transcript is stored as `text_content`, the
derived metadata carries no classification entry, and the event still ends
`ok`. -/
theorem blank_transcript_keeps_type :
    ∀ (env : PipeEnv) (ev : Event) (r : JObj) (s : String),
      ev.processing_status = "queued" → env.download = Except.ok () →
      env.enrich = Except.ok (JVal.jobj r) →
      jget r "text" = some (JVal.jstr s) → stripTruthy s = false →
      (transcribe_audio_task env ev).event.event_type = ev.event_type
      ∧ (transcribe_audio_task env ev).event.text_content = some s
      ∧ (transcribe_audio_task env ev).event.processing_status = "ok"
      ∧ ∃ dm, (transcribe_audio_task env ev).event.derived_meta = some dm
          ∧ jget dm "classification" = none := by
  intro env ev r s hq hd he htext hws
  unfold transcribe_audio_task
  simp only [hq, bne_self_eq_false, Bool.false_eq_true, if_false, hd, he, htext,
    hws, taskSucceed]
  refine ⟨by simp, by simp, by simp, _, rfl, ?_⟩
  simp [jget_cons, jget]


/-- Witness for C10: a whitespace transcript ends `ok` with the original
tag kept. -/
theorem blank_transcript_keeps_type_witness :
    (transcribe_audio_task sampleBlankEnv sampleQueuedEvent).event.processing_status = "ok"
    ∧ (transcribe_audio_task sampleBlankEnv sampleQueuedEvent).event.event_type
        = sampleQueuedEvent.event_type :=
  ⟨(blank_transcript_keeps_type sampleBlankEnv sampleQueuedEvent
      [("text", JVal.jstr " ")] " " rfl rfl rfl rfl (by decide)).2.2.1,
   (blank_transcript_keeps_type sampleBlankEnv sampleQueuedEvent
      [("text", JVal.jstr " ")] " " rfl rfl rfl rfl (by decide)).1⟩

/-- Witness for C2: three sweeps in the due window leave duplicate-free
ledger keys, and the mindform dispatch that happened was for a key with no
prior ledger row and no matching event. -/
theorem reminder_dedup_witness :
    ((runSweeps [(demoClock, demoSend), (demoClock, demoSend),
        (demoClock, demoSend)] demoUsers demoState).reminders.map remKey).Nodup
    ∧ ((∀ r ∈ demoState.reminders, remKey r ≠ ((1 : Int), (0 : Int), "mindform"))
       ∧ ∀ e ∈ demoState.events,
          ¬(e.telegram_user_id = 1 ∧ e.local_date = 0 ∧ e.event_type = "mindform")) :=
  ⟨reminder_dedup.1 _ demoUsers demoState (by decide),
   reminder_dedup.2 demoClock demoSend demoUsers demoState rfl 1 0 "mindform"
     (Or.inl (by decide))⟩

/-- **C4.** The due check `is_time_in_range` holds exactly when the local
minutes-of-day lies in the half-open interval `[target, target + window)`;
a user at the interval's start is due (for a positive window), a user
exactly at `target + window` minutes is not; concretely, with reminder
time 23:00 and a 5-minute window, 23:04:59 is due and 23:05:00 is not. -/
theorem is_time_in_range_half_open :
    (∀ (ct tt : Time) (w : Nat),
      is_time_in_range ct tt w = true ↔
        (minutesOfDay tt ≤ minutesOfDay ct ∧ minutesOfDay ct < minutesOfDay tt + w))
    ∧ (∀ (tt : Time) (w : Nat), 0 < w → is_time_in_range tt tt w = true)
    ∧ (∀ (ct tt : Time) (w : Nat), minutesOfDay ct = minutesOfDay tt + w →
        is_time_in_range ct tt w = false)
    ∧ is_time_in_range ⟨23, 4, 59⟩ ⟨23, 0, 0⟩ 5 = true
    ∧ is_time_in_range ⟨23, 5, 0⟩ ⟨23, 0, 0⟩ 5 = false := by
  refine ⟨?_, ?_, ?_, by decide, by decide⟩
  · intro ct tt w
    simp [is_time_in_range, minutesOfDay]
  · intro tt w hw
    simp [is_time_in_range, minutesOfDay, hw]
  · intro ct tt w h
    simp [is_time_in_range, minutesOfDay] at h ⊢
    omega

/-- Witness for C4 at a concrete positive window. -/
theorem is_time_in_range_half_open_witness :
    is_time_in_range ⟨9, 30, 0⟩ ⟨9, 30, 0⟩ 5 = true :=
  is_time_in_range_half_open.2.1 ⟨9, 30, 0⟩ 5 (by decide)

/-! ## C5 — initial status at event creation -/

/-- **C5 counterexample.** The claim says an event created with
`text_content` set is never `queued`; but creation with the empty string —
a supplied, non-null text content — yields status `queued` (Python
truthiness), not `ok`. -/
theorem create_event_empty_text_queued :
    (create_event_from_message 1 1 1 "reflection" "text" 0 0 none none none
        (some "")).text_content = some ""
    ∧ (create_event_from_message 1 1 1 "reflection" "text" 0 0 none none none
        (some "")).processing_status = "queued" := by
  constructor <;> rfl

/-- **C5 amended.** Event creation sets `processing_status` to `ok` when a
non-empty text content is supplied at creation, and to `queued` otherwise —
in particular when text content is absent, and also when it is supplied but
empty (Python truthiness of the empty string). -/
theorem create_event_status_amended (uid cid mid : Int) (et st : String)
    (ts : Nat) (d : Int) (k m : Option String) (fm : Option JObj) :
    (∀ s : String, s ≠ "" →
      (create_event_from_message uid cid mid et st ts d k m fm
        (some s)).processing_status = "ok")
    ∧ (create_event_from_message uid cid mid et st ts d k m fm
        none).processing_status = "queued"
    ∧ (create_event_from_message uid cid mid et st ts d k m fm
        (some "")).processing_status = "queued" := by
  refine ⟨?_, rfl, rfl⟩
  intro s hs
  simp [create_event_from_message, pyTruthyStr, hs]

/-- Witness for C5 (amended) at concrete inputs. -/
theorem create_event_status_amended_witness :
    (create_event_from_message 7 8 9 "dream" "text" 0 3 none none none
      (some "slept well")).processing_status = "ok" :=
  (create_event_status_amended 7 8 9 "dream" "text" 0 3 none none none).1
    "slept well" (by decide)

end Reflectica
